import Mathlib

/-!
Shallow embedding of the Bencode encoder/decoder pair
(`src/Bencode/Encoder.py`, `src/Bencode/Decoder.py`).

Byte buffers are `List Nat` (each element one byte, 0..255).  Python
`str` values are `List Nat` of Unicode code points.  Python exceptions
are modelled by `Except PyErr`; the single `DecodeError` exception class
carries, in place of its interpolated message string, an `ErrTag`
naming the raise site (one tag per distinct message text).  Python
`list.find`, slicing, negative indexing and `int()` are embedded by
`pyFind`, `pySlice`, `pyGet` and `pyInt` below, following CPython
semantics (including `int()` accepting surrounding ASCII whitespace, a
leading `+`/`-` sign, leading zeros, and single underscores between
digits).

The recursive decoder methods are embedded as a fuel-indexed family
`mkFuns` (structural recursion on the fuel, so all results compute by
`rfl`); every recursive call in the source decrements the fuel by one,
and the top-level wrappers `decode_list` / `decode_dictionary` supply
`(length + 2)^2 + 1` fuel, far more than the call depth the source can
reach on a buffer of that length (each nested call works on a strictly
shorter slice and each loop iteration advances the cursor).
-/

set_option maxRecDepth 20000
set_option maxHeartbeats 1000000

/-- Raise sites of `DecodeError`, one tag per distinct message text in
`src/Bencode/Decoder.py` (the message strings interpolate the input and
are otherwise constant). -/
inductive ErrTag where
  | intDelim        -- decode_int: must begin with i and end with e
  | intBase10       -- decode_int: must be encoded in base ten ASCII
  | negZero         -- decode_int: negative zero is not permitted
  | leadingZero     -- decode_int: leading zeros are not allowed
  | noColon         -- decode_string_bytes: string must contain colon
  | stringPrefix    -- prefixed length before colon must be an integer > 0
  | lenMismatch     -- decode_string_bytes: lengths do not match
  | listDelim       -- decode_list: must begin with l and end with e
  | dictDelim       -- decode_dictionary: must begin with d and end with e
  | listFromIdx     -- cannot decode list from index idx
  | listFrom        -- cannot decode list from inp_
  | dictFromIdx     -- cannot decode dictionary from index idx
  | cannotDecodeInt -- cannot decode integer from inp_
  | cannotDecodeString -- cannot decode string from inp_
  | cannotInferType -- cannot infer type from character
  | keyNotString    -- dictionary key must conform to string specification
  | unsortedKeys    -- keys must appear in sorted order
deriving DecidableEq

/-- Python exceptions reachable in the embedded code: `DecodeError`
(the only exception the source ever catches), `IndexError` from
out-of-range indexing, `AttributeError` from `bytes.encode`, and a
fuel marker that no run with adequate fuel produces. -/
inductive PyErr where
  | decodeError (t : ErrTag)
  | indexError
  | attributeError
  | outOfFuel
deriving DecidableEq

/-- The Python value universe the encoder/decoder traffic in: `int`,
`str` (code points), `bytes`, `list`, `dict` (insertion-ordered pairs;
keys may be any value, as in Python). -/
inductive BVal where
  | vint (n : Int)
  | vstr (s : List Nat)
  | vbytes (b : List Nat)
  | vlist (xs : List BVal)
  | vdict (es : List (BVal × BVal))

/-- Normalise a Python slice bound: negative bounds count from the end
and clamp at 0, positive bounds clamp at the length. -/
def pyIdxNorm (n : Nat) (i : Int) : Nat :=
  if i < 0 then (i + n).toNat else min i.toNat n

/-- Python slice `l[a:b]`. -/
def pySlice (l : List Nat) (a b : Int) : List Nat :=
  (l.take (pyIdxNorm l.length b)).drop (pyIdxNorm l.length a)

/-- Python indexing `l[i]` (negative indexes count from the end);
`none` models `IndexError`. -/
def pyGet (l : List Nat) (i : Int) : Option Nat :=
  let j : Int := if i < 0 then i + l.length else i
  if j < 0 then none else l.get? j.toNat

/-- Scan helper for `pyFind`: first index (counting from `i`) holding
byte `ch`, or `-1`. -/
def pyFindAux (ch : Nat) : List Nat → Nat → Int
  | [], _ => -1
  | b :: rest, i => if b = ch then (i : Int) else pyFindAux ch rest (i + 1)

/-- Python `bytes.find(ch, start)`: index of the first occurrence of
byte `ch` at or after `start`, or `-1`. -/
def pyFind (l : List Nat) (ch : Nat) (start : Int) : Int :=
  let s := pyIdxNorm l.length start
  pyFindAux ch (l.drop s) s

/-- ASCII whitespace stripped by Python `int()` on bytes input. -/
def isPySpace (b : Nat) : Bool :=
  b = 32 || b = 9 || b = 10 || b = 13 || b = 11 || b = 12

def isDigit (b : Nat) : Bool := 48 ≤ b && b ≤ 57

/-- After the first digit of an `int()` literal: digits, with single
underscores allowed between digits (PEP 515).  Returns the digits with
underscores removed, or `none` if malformed. -/
def pyDigTail : List Nat → Option (List Nat)
  | [] => some []
  | 95 :: d :: rest =>
      if isDigit d then (pyDigTail rest).map (d :: ·) else none
  | [95] => none
  | d :: rest =>
      if isDigit d then (pyDigTail rest).map (d :: ·) else none

/-- A nonempty digit run with PEP 515 underscores. -/
def pyDigRun : List Nat → Option (List Nat)
  | [] => none
  | d :: rest =>
      if isDigit d then (pyDigTail rest).map (d :: ·) else none

def digsToNat (l : List Nat) : Nat :=
  l.foldl (fun a b => a * 10 + (b - 48)) 0

/-- Python `int(bytes)`: strip ASCII whitespace, optional single sign,
then one or more ASCII digits (underscore separators allowed); `none`
models `ValueError`. -/
def pyInt (l : List Nat) : Option Int :=
  let core := ((l.dropWhile isPySpace).reverse.dropWhile isPySpace).reverse
  match core with
  | 43 :: rest => (pyDigRun rest).map (fun ds => (digsToNat ds : Int))
  | 45 :: rest => (pyDigRun rest).map (fun ds => -(digsToNat ds : Int))
  | rest => (pyDigRun rest).map (fun ds => (digsToNat ds : Int))

/-- UTF-8 encoding of one code point. -/
def utf8Char (c : Nat) : List Nat :=
  if c < 128 then [c]
  else if c < 2048 then [192 + c / 64, 128 + c % 64]
  else if c < 65536 then [224 + c / 4096, 128 + (c / 64) % 64, 128 + c % 64]
  else [240 + c / 262144, 128 + (c / 4096) % 64, 128 + (c / 64) % 64, 128 + c % 64]

/-- UTF-16-LE encoding of one code point (surrogate pairs above the BMP). -/
def utf16Char (c : Nat) : List Nat :=
  if c < 65536 then [c % 256, c / 256]
  else
    let cp := c - 65536
    let hi := 55296 + cp / 1024
    let lo := 56320 + cp % 1024
    [hi % 256, hi / 256, lo % 256, lo / 256]

/-- A text codec as used by `str.encode(encoding)`: code points to bytes. -/
structure PyEncoding where
  encodeStr : List Nat → List Nat

/-- The default codec, `'UTF-8'`. -/
def utf8enc : PyEncoding := ⟨fun s => (s.map utf8Char).flatten⟩

/-- The `'UTF-16'` codec: a byte-order mark, then UTF-16-LE pairs. -/
def utf16enc : PyEncoding := ⟨fun s => 255 :: 254 :: (s.map utf16Char).flatten⟩

/-- The per-instance byte constants `BencodeDecoder.__init__` computes
as `'i'.encode(self.encoding)[0]` and so on. -/
structure DecCfg where
  ci : Nat
  cl : Nat
  cd : Nat
  ce : Nat
  c0 : Nat
  c9 : Nat
  ccolon : Nat
  chyphen : Nat

/-- `BencodeDecoder.__init__`: derive the tag/delimiter byte constants
from the first byte of each character's encoding. -/
def mkDecCfg (enc : PyEncoding) : DecCfg :=
  { ci := (enc.encodeStr [105]).headD 0
    cl := (enc.encodeStr [108]).headD 0
    cd := (enc.encodeStr [100]).headD 0
    ce := (enc.encodeStr [101]).headD 0
    c0 := (enc.encodeStr [48]).headD 0
    c9 := (enc.encodeStr [57]).headD 0
    ccolon := (enc.encodeStr [58]).headD 0
    chyphen := (enc.encodeStr [45]).headD 0 }

def utf8Cfg : DecCfg := mkDecCfg utf8enc

def utf16Cfg : DecCfg := mkDecCfg utf16enc

/-- `BencodeDecoder.decode_int` (Decoder.py lines 31-56). -/
def decode_int (cfg : DecCfg) (inp : List Nat) : Except PyErr Int :=
  match pyGet inp 0 with
  | none => .error .indexError
  | some b0 =>
    if b0 ≠ cfg.ci then .error (.decodeError .intDelim)
    else
      match pyGet inp (-1) with
      | none => .error .indexError
      | some bL =>
        if bL ≠ cfg.ce then .error (.decodeError .intDelim)
        else
          match pyInt (pySlice inp 1 (-1)) with
          | none => .error (.decodeError .intBase10)
          | some r =>
            match pyGet inp 1 with
            | none => .error .indexError
            | some b1 =>
              if r = 0 ∧ b1 = cfg.chyphen then .error (.decodeError .negZero)
              else if r ≠ 0 then
                if b1 = cfg.chyphen then
                  match pyGet inp 2 with
                  | none => .error .indexError
                  | some b2 =>
                    if b2 = cfg.c0 then .error (.decodeError .leadingZero)
                    else .ok r
                else if b1 = cfg.c0 then .error (.decodeError .leadingZero)
                else .ok r
              else .ok r

/-- `BencodeDecoder.decode_string_bytes` (Decoder.py lines 58-82). -/
def decode_string_bytes (cfg : DecCfg) (inp : List Nat) : Except PyErr (List Nat) :=
  let cp := pyFind inp cfg.ccolon 0
  if cp = -1 then .error (.decodeError .noColon)
  else
    match pyInt (pySlice inp 0 cp) with
    | none => .error (.decodeError .stringPrefix)
    | some n =>
      if n ≤ 0 then .error (.decodeError .stringPrefix)
      else
        let rest := pySlice inp (cp + 1) (inp.length : Int)
        if n ≠ (rest.length : Int) then .error (.decodeError .lenMismatch)
        else .ok rest

/-- Python dict assignment `results[key] = value` on an
insertion-ordered association list: an existing key keeps its position
and gets the new value, a new key is appended. -/
def assocUpd (l : List (List Nat × BVal)) (k : List Nat) (v : BVal) :
    List (List Nat × BVal) :=
  if l.any (fun p => p.1 = k) then
    l.map (fun p => if p.1 = k then (k, v) else p)
  else l ++ [(k, v)]

/-- Python `bytes` comparison used by `sorted`: lexicographic byte
order, a proper prefix sorting first. -/
def lexLE : List Nat → List Nat → Bool
  | [], _ => true
  | _ :: _, [] => false
  | a :: as, b :: bs => if a < b then true else if b < a then false else lexLE as bs

/-- One insertion step of insertion sort under `lexLE`. -/
def insertLE (x : List Nat) : List (List Nat) → List (List Nat)
  | [] => [x]
  | y :: ys => if lexLE x y then x :: y :: ys else y :: insertLE x ys

/-- Python `sorted` on a list of byte strings.  (`lexLE` is a total
order with antisymmetry, so the stable `sorted` of CPython and this
insertion sort produce the same list.) -/
def pySorted (l : List (List Nat)) : List (List Nat) := l.foldr insertLE []

/-- Boolean check that a key sequence is non-decreasing under raw byte
order; `keys == sorted(keys)` holds exactly when this does. -/
def nonDec : List (List Nat) → Bool
  | [] => true
  | [_] => true
  | a :: b :: rest => lexLE a b && nonDec (b :: rest)

/-- Embed a decoded dictionary (bytes keys) back into the value
universe, for nesting a dictionary result inside a parent container. -/
def dictToVal (res : List (List Nat × BVal)) : BVal :=
  .vdict (res.map (fun p => (.vbytes p.1, p.2)))

/-- The recursive decoder methods, one fuel level: `dlist` and `ddict`
are `decode_list` / `decode_dictionary`; `dlistLoop` / `ddictLoop` are
their `while` loops (cursor `idx` as a Python `int`); `rlist` / `rdict`
are the scan-and-retry `while ending_e != -1` loops used for nested
lists/dictionaries. -/
structure DecFuns where
  dlist : List Nat → Except PyErr (List BVal)
  dlistLoop : List Nat → Int → List BVal → Except PyErr (List BVal)
  rlist : List Nat → Int → Int → Except PyErr (Int × BVal)
  rdict : List Nat → Int → Int → Except PyErr (Int × BVal)
  ddict : List Nat → Except PyErr (List (List Nat × BVal))
  ddictLoop : List Nat → Int → List (List Nat × BVal) → List (List Nat) →
      Except PyErr (List (List Nat × BVal) × List (List Nat))

/-- Decoder.py lines 111-120: the scan-and-retry `while` loop that
locates a nested list's closing `e` inside `decode_list`; `prev` holds
the decoder functions one recursion level down.  A `DecodeError` from
the attempted slice moves `ending_e` to the next `e`; any other
exception propagates. -/
def rlistBody (cfg : DecCfg) (prev : DecFuns) (inp : List Nat) (idx endE : Int) :
    Except PyErr (Int × BVal) :=
  match prev.dlist (pySlice inp idx (endE + 1)) with
  | .ok xs => .ok (endE + 1, .vlist xs)
  | .error (.decodeError _) =>
    let e2 := pyFind inp cfg.ce (endE + 1)
    if e2 = -1 then .error (.decodeError .listFrom)
    else prev.rlist inp idx e2
  | .error err => .error err

/-- Decoder.py lines 126-135 and 218-228: the scan-and-retry loop for a
nested dictionary. -/
def rdictBody (cfg : DecCfg) (prev : DecFuns) (inp : List Nat) (idx endE : Int) :
    Except PyErr (Int × BVal) :=
  match prev.ddict (pySlice inp idx (endE + 1)) with
  | .ok res => .ok (endE + 1, dictToVal res)
  | .error (.decodeError _) =>
    let e2 := pyFind inp cfg.ce (endE + 1)
    if e2 = -1 then .error (.decodeError .dictFromIdx)
    else prev.rdict inp idx e2
  | .error err => .error err

/-- Decoder.py lines 98-156: the element loop of `decode_list`, cursor
`idx` as a Python `int`.  Dispatch on the byte at the cursor; nested
lists and dictionaries go through the retry loops, integers and strings
are sliced and decoded directly. -/
def dlistLoopBody (cfg : DecCfg) (prev : DecFuns) (inp : List Nat) (idx : Int)
    (acc : List BVal) : Except PyErr (List BVal) :=
  if idx < (inp.length : Int) - 1 then
    match pyGet inp idx with
    | none => .error .indexError
    | some b =>
      if b = cfg.ci then
        let e := pyFind inp cfg.ce (idx + 1)
        match decode_int cfg (pySlice inp idx (e + 1)) with
        | .ok r => prev.dlistLoop inp (e + 1) (acc ++ [.vint r])
        | .error (.decodeError _) => .error (.decodeError .cannotDecodeInt)
        | .error err => .error err
      else if b = cfg.cl then
        let e := pyFind inp cfg.ce (idx + 1)
        if e = -1 then .error (.decodeError .listFromIdx)
        else
          match rlistBody cfg prev inp idx e with
          | .ok (idx2, v) => prev.dlistLoop inp idx2 (acc ++ [v])
          | .error err => .error err
      else if b = cfg.cd then
        let e := pyFind inp cfg.ce (idx + 1)
        if e = -1 then .error (.decodeError .dictFromIdx)
        else
          match rdictBody cfg prev inp idx e with
          | .ok (idx2, v) => prev.dlistLoop inp idx2 (acc ++ [v])
          | .error err => .error err
      else if cfg.c0 ≤ b ∧ b ≤ cfg.c9 then
        let colon := pyFind inp cfg.ccolon (idx + 1)
        match pyInt (pySlice inp idx colon) with
        | none => .error (.decodeError .stringPrefix)
        | some n =>
          if n ≤ 0 then .error (.decodeError .stringPrefix)
          else
            match decode_string_bytes cfg (pySlice inp idx (colon + n + 1)) with
            | .ok bs => prev.dlistLoop inp (colon + n + 1) (acc ++ [.vbytes bs])
            | .error (.decodeError _) => .error (.decodeError .cannotDecodeString)
            | .error err => .error err
      else .error (.decodeError .cannotInferType)
  else .ok acc

/-- Decoder.py lines 176-250: the key/value loop of
`decode_dictionary`.  A key must start with a digit and is sliced via
its length prefix; the value is dispatched like a list element, except
that a nested list value is tried once at the first `e` (lines 206-213
have no retry loop), while a nested dictionary value retries. -/
def ddictLoopBody (cfg : DecCfg) (prev : DecFuns) (inp : List Nat) (idx : Int)
    (res : List (List Nat × BVal)) (keys : List (List Nat)) :
    Except PyErr (List (List Nat × BVal) × List (List Nat)) :=
  if idx < (inp.length : Int) - 2 then
    match pyGet inp idx with
    | none => .error .indexError
    | some b =>
      if ¬ (cfg.c0 ≤ b ∧ b ≤ cfg.c9) then .error (.decodeError .keyNotString)
      else
        let colon := pyFind inp cfg.ccolon (idx + 1)
        match pyInt (pySlice inp idx colon) with
        | none => .error (.decodeError .stringPrefix)
        | some n =>
          if n ≤ 0 then .error (.decodeError .stringPrefix)
          else
            let idx1 := colon + n + 1
            match decode_string_bytes cfg (pySlice inp idx (colon + n + 1)) with
            | .error (.decodeError _) => .error (.decodeError .cannotDecodeString)
            | .error err => .error err
            | .ok key =>
              match pyGet inp idx1 with
              | none => .error .indexError
              | some bv =>
                if bv = cfg.ci then
                  let e := pyFind inp cfg.ce (idx1 + 1)
                  match decode_int cfg (pySlice inp idx1 (e + 1)) with
                  | .ok r =>
                    prev.ddictLoop inp (e + 1) (assocUpd res key (.vint r)) (keys ++ [key])
                  | .error (.decodeError _) => .error (.decodeError .cannotDecodeInt)
                  | .error err => .error err
                else if bv = cfg.cl then
                  let e := pyFind inp cfg.ce (idx1 + 1)
                  match prev.dlist (pySlice inp idx1 (e + 1)) with
                  | .ok xs =>
                    prev.ddictLoop inp (e + 1) (assocUpd res key (.vlist xs)) (keys ++ [key])
                  | .error (.decodeError _) => .error (.decodeError .listFrom)
                  | .error err => .error err
                else if bv = cfg.cd then
                  let e := pyFind inp cfg.ce (idx1 + 1)
                  if e = -1 then .error (.decodeError .dictFromIdx)
                  else
                    match rdictBody cfg prev inp idx1 e with
                    | .ok (idx2, v) =>
                      prev.ddictLoop inp idx2 (assocUpd res key v) (keys ++ [key])
                    | .error err => .error err
                else if cfg.c0 ≤ bv ∧ bv ≤ cfg.c9 then
                  let colon2 := pyFind inp cfg.ccolon (idx1 + 1)
                  match pyInt (pySlice inp idx1 colon2) with
                  | none => .error (.decodeError .stringPrefix)
                  | some m =>
                    if m ≤ 0 then .error (.decodeError .stringPrefix)
                    else
                      match decode_string_bytes cfg (pySlice inp idx1 (colon2 + m + 1)) with
                      | .ok bs =>
                        prev.ddictLoop inp (colon2 + m + 1)
                          (assocUpd res key (.vbytes bs)) (keys ++ [key])
                      | .error (.decodeError _) =>
                        .error (.decodeError .cannotDecodeString)
                      | .error err => .error err
                else .error (.decodeError .cannotInferType)
  else .ok (res, keys)

/-- Decoder.py lines 84-157: `decode_list` at one recursion level:
check the first and last byte, then run the element loop from cursor 1. -/
def dlistBody (cfg : DecCfg) (prev : DecFuns) (inp : List Nat) :
    Except PyErr (List BVal) :=
  match pyGet inp 0 with
  | none => .error .indexError
  | some b0 =>
    if b0 ≠ cfg.cl then .error (.decodeError .listDelim)
    else
      match pyGet inp (-1) with
      | none => .error .indexError
      | some bL =>
        if bL ≠ cfg.ce then .error (.decodeError .listDelim)
        else dlistLoopBody cfg prev inp 1 []

/-- Decoder.py lines 159-256: `decode_dictionary` at one recursion
level: delimiter checks, the key/value loop, then the
`keys != sorted(keys)` validation. -/
def ddictBody (cfg : DecCfg) (prev : DecFuns) (inp : List Nat) :
    Except PyErr (List (List Nat × BVal)) :=
  match pyGet inp 0 with
  | none => .error .indexError
  | some b0 =>
    if b0 ≠ cfg.cd then .error (.decodeError .dictDelim)
    else
      match pyGet inp (-1) with
      | none => .error .indexError
      | some bL =>
        if bL ≠ cfg.ce then .error (.decodeError .dictDelim)
        else
          match ddictLoopBody cfg prev inp 1 [] [] with
          | .error e => .error e
          | .ok (res, keys) =>
            if keys = pySorted keys then .ok res
            else .error (.decodeError .unsortedKeys)

/-- Fuel-indexed embedding of `BencodeDecoder` (Decoder.py lines
84-256).  Every recursive call of the source (a nested decode, one more
`while` iteration, or one more retry step) steps down one fuel level;
the bodies at level `fuel + 1` are the named `...Body` functions over
the level-`fuel` family. -/
def mkFuns (cfg : DecCfg) : Nat → DecFuns
  | 0 =>
    ⟨fun _ => .error .outOfFuel, fun _ _ _ => .error .outOfFuel,
     fun _ _ _ => .error .outOfFuel, fun _ _ _ => .error .outOfFuel,
     fun _ => .error .outOfFuel, fun _ _ _ _ => .error .outOfFuel⟩
  | fuel + 1 =>
    let prev := mkFuns cfg fuel
    ⟨dlistBody cfg prev, dlistLoopBody cfg prev, rlistBody cfg prev,
     rdictBody cfg prev, ddictBody cfg prev, ddictLoopBody cfg prev⟩

/-- `BencodeDecoder.decode_list` under the default `'UTF-8'` encoding,
with fuel amply covering the call depth reachable on the buffer. -/
def decode_list (inp : List Nat) : Except PyErr (List BVal) :=
  (mkFuns utf8Cfg ((inp.length + 2) ^ 2 + 1)).dlist inp

/-- `BencodeDecoder.decode_dictionary` under the default `'UTF-8'`
encoding. -/
def decode_dictionary (inp : List Nat) : Except PyErr (List (List Nat × BVal)) :=
  (mkFuns utf8Cfg ((inp.length + 2) ^ 2 + 1)).ddict inp

/-- Fuel-bounded decimal digit expansion of a natural number. -/
def natCpsAux : Nat → Nat → List Nat
  | 0, _ => []
  | f + 1, n =>
    if n < 10 then [48 + n] else natCpsAux f (n / 10) ++ [48 + n % 10]

/-- Code points of the decimal form of a natural number, as produced by
Python string formatting. -/
def natCps (n : Nat) : List Nat := natCpsAux (n + 1) n

/-- Code points of `str(obj)` for a Python `int`. -/
def intCps (n : Int) : List Nat :=
  if n < 0 then 45 :: natCps (-n).toNat else natCps n.toNat

/-- `BencodeEncoder.encode_int` (Encoder.py lines 25-33):
`f'i{obj}e'.encode(self.encoding)`. -/
def encode_int (enc : PyEncoding) (n : Int) : List Nat :=
  enc.encodeStr (105 :: (intCps n ++ [101]))

/-- `BencodeEncoder.encode_string` (Encoder.py lines 35-45): a `str`
argument is first encoded to bytes; the prefix `f'{len(obj)}:'` is then
encoded and the raw bytes appended.  Only `str` and `bytes` reach this
method through the `ops` dispatch table. -/
def encode_string (enc : PyEncoding) (v : BVal) : List Nat :=
  match v with
  | .vstr s =>
    let b := enc.encodeStr s
    enc.encodeStr (natCps b.length ++ [58]) ++ b
  | .vbytes b => enc.encodeStr (natCps b.length ++ [58]) ++ b
  | _ => []

/-- The `byte_key_dict` construction of `encode_dict` (Encoder.py lines
59-61): each key is converted with `key.encode(self.encoding, 'strict')`.
A `str` key encodes to bytes; every other key type lacks an `encode`
method, so Python raises `AttributeError`. -/
def buildBK (enc : PyEncoding) :
    List (List Nat × BVal) → List (BVal × BVal) →
    Except PyErr (List (List Nat × BVal))
  | acc, [] => .ok acc
  | acc, (k, v) :: rest =>
    match k with
    | .vstr s => buildBK enc (assocUpd acc (enc.encodeStr s) v) rest
    | _ => .error .attributeError

/-- One insertion step of sorting dict items by key bytes. -/
def insertPair (x : List Nat × BVal) :
    List (List Nat × BVal) → List (List Nat × BVal)
  | [] => [x]
  | y :: ys => if lexLE x.1 y.1 then x :: y :: ys else y :: insertPair x ys

/-- Python `sorted(byte_key_dict.items(), key=lambda x: x[0])`: the
keys are pairwise distinct (they come out of a dict), so the stable
CPython sort and this insertion sort agree. -/
def sortPairs (l : List (List Nat × BVal)) : List (List Nat × BVal) :=
  l.foldr insertPair []

/-- The mutually recursive encoder methods at one fuel level: `eop` is
the `self.ops[type(value)](value)` dispatch (every `BVal` constructor
has an `ops` entry), `eseq` the element loop of `encode_list`, `eents`
the entry loop of `encode_dict`. -/
structure EncFuns where
  eop : BVal → Except PyErr (List Nat)
  eseq : List BVal → Except PyErr (List Nat)
  eents : List (List Nat × BVal) → Except PyErr (List Nat)

/-- Fuel-indexed embedding of `BencodeEncoder` (Encoder.py lines
14-96).  The per-element type test of `encode_list` (line 82) always
passes on the closed `BVal` union, so only the dispatch remains;
the `print` call (line 81) has no effect on the produced value. -/
def mkEnc (enc : PyEncoding) : Nat → EncFuns
  | 0 =>
    ⟨fun _ => .error .outOfFuel, fun _ => .error .outOfFuel,
     fun _ => .error .outOfFuel⟩
  | fuel + 1 =>
    let prev := mkEnc enc fuel
    let eseq : List BVal → Except PyErr (List Nat) := fun xs =>
      match xs with
      | [] => .ok []
      | x :: rest =>
        match prev.eop x with
        | .error e => .error e
        | .ok bs =>
          match prev.eseq rest with
          | .error e => .error e
          | .ok bs2 => .ok (bs ++ bs2)
    let eents : List (List Nat × BVal) → Except PyErr (List Nat) := fun es =>
      match es with
      | [] => .ok []
      | (k, v) :: rest =>
        match prev.eop v with
        | .error e => .error e
        | .ok bv =>
          match prev.eents rest with
          | .error e => .error e
          | .ok bs2 => .ok (encode_string enc (.vbytes k) ++ bv ++ bs2)
    let eop : BVal → Except PyErr (List Nat) := fun v =>
      match v with
      | .vint m => .ok (encode_int enc m)
      | .vstr s => .ok (encode_string enc (.vstr s))
      | .vbytes b => .ok (encode_string enc (.vbytes b))
      | .vlist xs =>
        match eseq xs with
        | .error e => .error e
        | .ok body => .ok (enc.encodeStr [108] ++ body ++ enc.encodeStr [101])
      | .vdict es =>
        match buildBK enc [] es with
        | .error e => .error e
        | .ok bk =>
          match eents (sortPairs bk) with
          | .error e => .error e
          | .ok body => .ok (enc.encodeStr [100] ++ body ++ enc.encodeStr [101])
    ⟨eop, eseq, eents⟩

/-- `BencodeEncoder.encode` (Encoder.py lines 90-96) under the default
`'UTF-8'` encoding: the top-level type test always passes on `BVal`,
leaving the `ops` dispatch.  The explicit fuel bounds the recursion
depth; the source recursion descends through strictly smaller
subvalues, so any fuel exceeding the value's constructor count gives
the source behaviour, and a `.ok`, `.attributeError` or
`.decodeError` result can never be a fuel artifact (fuel exhaustion is
the separate `.outOfFuel`). -/
def encode (fuel : Nat) (v : BVal) : Except PyErr (List Nat) :=
  (mkEnc utf8enc fuel).eop v

/-- `lexLE` is reflexive. -/
theorem lexLE_refl (a : List Nat) : lexLE a a = true := by
  induction a with
  | nil => rfl
  | cons h t ih => simp [lexLE, Nat.lt_irrefl, ih]

/-- `lexLE` is total: if `a` is not below `b`, then `b` is below `a`. -/
theorem lexLE_of_not (a b : List Nat) (h : lexLE a b = false) : lexLE b a = true := by
  induction a generalizing b with
  | nil => simp [lexLE] at h
  | cons x xs ih =>
    cases b with
    | nil => rfl
    | cons y ys =>
      by_cases hxy : x < y
      · simp [lexLE, hxy] at h
      · by_cases hyx : y < x
        · simp [lexLE, hyx]
        · have hxe : ¬ y < x := hyx
          have : x = y := Nat.le_antisymm (Nat.le_of_not_lt hyx) (Nat.le_of_not_lt hxy)
          subst this
          simp [lexLE, Nat.lt_irrefl] at h ⊢
          exact ih ys h

/-- Inserting into a non-decreasing list keeps it non-decreasing. -/
theorem nonDec_insertLE (x : List Nat) (l : List (List Nat))
    (h : nonDec l = true) : nonDec (insertLE x l) = true := by
  induction l with
  | nil => rfl
  | cons y ys ih =>
    cases hxy : lexLE x y with
    | true =>
      have hys : nonDec (y :: ys) = true := h
      simp [insertLE, hxy, nonDec, hys]
    | false =>
      have hyx : lexLE y x = true := lexLE_of_not x y hxy
      cases ys with
      | nil => simp [insertLE, hxy, nonDec, hyx]
      | cons z zs =>
        have hparts : lexLE y z = true ∧ nonDec (z :: zs) = true := by
          simpa [nonDec] using h
        have hins : nonDec (insertLE x (z :: zs)) = true := ih hparts.2
        cases hxz : lexLE x z with
        | true =>
          simp [insertLE, hxy, hxz, nonDec, hyx, hparts.2]
        | false =>
          simp only [insertLE, hxz] at hins
          simp only [insertLE, hxy, hxz]
          simp only [Bool.false_eq_true, if_false] at hins ⊢
          simp [nonDec, hparts.1]
          simpa [nonDec] using hins

/-- The output of the embedded `sorted` is always non-decreasing. -/
theorem nonDec_pySorted (l : List (List Nat)) : nonDec (pySorted l) = true := by
  induction l with
  | nil => rfl
  | cons a l ih => simpa [pySorted] using nonDec_insertLE a _ (by simpa [pySorted] using ih)

/-- Sanity: the `'UTF-8'` decoder constants are the ASCII bytes of
`i l d e 0 9 : -`. -/
theorem utf8Cfg_eq : utf8Cfg = ⟨105, 108, 100, 101, 48, 57, 58, 45⟩ := rfl

/-- Sanity: under `'UTF-16'` every constant collapses to the first
byte-order-mark byte `0xFF`, since `'i'.encode('UTF-16')[0] = 0xFF`. -/
theorem utf16Cfg_eq : utf16Cfg = ⟨255, 255, 255, 255, 255, 255, 255, 255⟩ := rfl

/-- The canonical wire form of the list `[[1], 2]`: `b'lli1eei2ee'`. -/
def bufListNested : List Nat := [108, 108, 105, 49, 101, 101, 105, 50, 101, 101]

/-- `b'd4:spam4:eggs3:cow3:mooe'` (keys out of order). -/
def bufUnsorted : List Nat :=
  [100, 52, 58, 115, 112, 97, 109, 52, 58, 101, 103, 103, 115,
   51, 58, 99, 111, 119, 51, 58, 109, 111, 111, 101]

/-- `b'd3:cow3:moo4:spam4:eggse'` (keys ascending). -/
def bufSorted : List Nat :=
  [100, 51, 58, 99, 111, 119, 51, 58, 109, 111, 111,
   52, 58, 115, 112, 97, 109, 52, 58, 101, 103, 103, 115, 101]

/-- `b'd1:ai1e1:ai2ee'` (the same key `a` twice). -/
def bufDupKeys : List Nat :=
  [100, 49, 58, 97, 105, 49, 101, 49, 58, 97, 105, 50, 101, 101]

/-- C1.  The round-trip claim fails on the code: the encoder does
produce the canonical bytes `b'lli1eei2ee'` for the value `[[1], 2]`,
but `decode_list` on those very bytes raises a `DecodeError` (the
forward scan for `e` slices the nested list as `b'li1e'`, which wrongly
succeeds, so the real closing `e` is later dispatched as an element
tag), instead of returning `[[1], 2]`. -/
theorem c1_round_trip_fails :
    encode 10 (.vlist [.vlist [.vint 1], .vint 2]) = .ok bufListNested ∧
    decode_list bufListNested = .error (.decodeError .cannotInferType) :=
  ⟨rfl, rfl⟩

/-- C2.  `encode(decode(b))` fails on the canonical buffer
`b'd1:ai1ee'`: decoding yields the dictionary with the raw-bytes key
`b'a'`, and `encode_dict` then calls `key.encode(...)` on that bytes
key, raising `AttributeError` rather than reproducing `b`. -/
theorem c2_canonical_form_fails :
    decode_dictionary [100, 49, 58, 97, 105, 49, 101, 101] = .ok [([97], .vint 1)] ∧
    encode 10 (.vdict [(.vbytes [97], .vint 1)]) = .error .attributeError :=
  ⟨rfl, rfl⟩

/-- C3.  Boundary detection: `b'l1:ee'` does decode to the one-element
list holding the byte string `b'e'`, but the equally well-formed
`b'lli1eei2ee'` (the list `[[1], 2]`) is rejected with a `DecodeError`,
because nested-list boundaries are found by scanning for the next `e`
byte and retrying rather than by structural consumption. -/
theorem c3_boundary_detection :
    decode_list [108, 49, 58, 101, 101] = .ok [.vbytes [101]] ∧
    decode_list bufListNested = .error (.decodeError .cannotInferType) :=
  ⟨rfl, rfl⟩

/-- C4.  Soundness failure: on the malformed buffer `b'l1:e'` (the
terminating `e` of the list is the same byte as the string content)
`decode_list` returns the list `[b'e']` instead of raising a
`DecodeError` — the final byte is consumed once as string content after
already having passed the `inp[-1] == e` terminator check. -/
theorem c4_malformed_list_accepted :
    decode_list [108, 49, 58, 101] = .ok [.vbytes [101]] := rfl

/-- C5.  The integer grammar of the claim holds for `i3e`, `i-3e`,
`i0e`, `i-0e` and `i03e`, but fails elsewhere: `decode_int` accepts
`b'i00e'` (value 0 — the leading-zero check is skipped whenever the
parsed value is zero and the sign byte is not a hyphen) and accepts
`b'i+3e'` (Python `int()` allows an explicit plus sign). -/
theorem c5_integer_grammar :
    decode_int utf8Cfg [105, 51, 101] = .ok 3 ∧
    decode_int utf8Cfg [105, 45, 51, 101] = .ok (-3) ∧
    decode_int utf8Cfg [105, 48, 101] = .ok 0 ∧
    decode_int utf8Cfg [105, 45, 48, 101] = .error (.decodeError .negZero) ∧
    decode_int utf8Cfg [105, 48, 51, 101] = .error (.decodeError .leadingZero) ∧
    decode_int utf8Cfg [105, 48, 48, 101] = .ok 0 ∧
    decode_int utf8Cfg [105, 43, 51, 101] = .ok 3 :=
  ⟨rfl, rfl, rfl, rfl, rfl, rfl, rfl⟩

/-- C7.  No depth guard exists: the decoder's only failure type is the
single `DecodeError` (plus uncaught builtin exceptions) — there is no
`DepthExceeded` — and already at nesting depth three the well-formed
buffer `b'llleee'` fails with the generic boundary error
`cannotInferType` (depth two, `b'llee'`, still succeeds), rather than
any depth-limit behaviour. -/
theorem c7_no_depth_guard :
    decode_list [108, 108, 101, 101] = .ok [.vlist []] ∧
    decode_list [108, 108, 108, 101, 101, 101] =
      .error (.decodeError .cannotInferType) :=
  ⟨rfl, rfl⟩

/-- C8.  The text-encoding configuration changes the wire bytes on both
sides: `encode_int 3` is `b'i3e'` under `'UTF-8'` but a BOM-prefixed
UTF-16 byte string under `'UTF-16'`, and the `'UTF-16'` decoder
(whose tag constants are the first byte `0xFF` of each encoded
character) rejects the canonical buffer `b'i3e'` that the `'UTF-8'`
decoder accepts. -/
theorem c8_encoding_changes_wire_bytes :
    encode_int utf16enc 3 ≠ encode_int utf8enc 3 ∧
    decode_int utf16Cfg [105, 51, 101] = .error (.decodeError .intDelim) ∧
    decode_int utf8Cfg [105, 51, 101] = .ok 3 :=
  ⟨by decide, rfl, rfl⟩

/-- Unfolding one fuel level of the decoder family. -/
theorem mkFuns_succ_ddict (cfg : DecCfg) (f : Nat) :
    (mkFuns cfg (f + 1)).ddict = ddictBody cfg (mkFuns cfg f) := rfl

/-- Unfolding one fuel level: the dictionary key/value loop. -/
theorem mkFuns_succ_ddictLoop (cfg : DecCfg) (f : Nat) :
    (mkFuns cfg (f + 1)).ddictLoop = ddictLoopBody cfg (mkFuns cfg f) := rfl

/-- Unfolding one fuel level: the list element loop. -/
theorem mkFuns_succ_dlistLoop (cfg : DecCfg) (f : Nat) :
    (mkFuns cfg (f + 1)).dlistLoop = dlistLoopBody cfg (mkFuns cfg f) := rfl

/-- C6.  Key-order validation: whenever the key/value loop of
`decode_dictionary` parses to completion with a key sequence that is
not non-decreasing in raw byte order, the final `keys != sorted(keys)`
check raises the unsorted-keys `DecodeError`; concretely,
`b'd4:spam4:eggs3:cow3:mooe'` fails with that error while
`b'd3:cow3:moo4:spam4:eggse'` decodes to `{cow: moo, spam: eggs}`. -/
theorem c6_key_order_check :
    (∀ inp res keys, pyGet inp 0 = some 100 → pyGet inp (-1) = some 101 →
      (mkFuns utf8Cfg ((inp.length + 2) ^ 2 + 1)).ddictLoop inp 1 [] [] = .ok (res, keys) →
      nonDec keys = false →
      decode_dictionary inp = .error (.decodeError .unsortedKeys)) ∧
    decode_dictionary bufUnsorted = .error (.decodeError .unsortedKeys) ∧
    decode_dictionary bufSorted =
      .ok [([99, 111, 119], .vbytes [109, 111, 111]),
           ([115, 112, 97, 109], .vbytes [101, 103, 103, 115])] := by
  refine ⟨?_, rfl, rfl⟩
  intro inp res keys h0 h1 hloop hnd
  have hne : keys ≠ pySorted keys := by
    intro he
    have hsort := nonDec_pySorted keys
    rw [← he, hnd] at hsort
    exact Bool.false_ne_true hsort
  unfold decode_dictionary
  rw [mkFuns_succ_ddict]
  rw [mkFuns_succ_ddictLoop] at hloop
  unfold ddictBody
  rw [h0]
  dsimp only
  simp only [show utf8Cfg.cd = 100 from rfl, show utf8Cfg.ce = 101 from rfl]
  rw [if_neg (by decide : ¬ ((100 : Nat) ≠ 100))]
  rw [h1]
  dsimp only
  rw [if_neg (by decide : ¬ ((101 : Nat) ≠ 101))]
  rw [hloop]
  dsimp only
  rw [if_neg hne]

/-- Witness for C6 at `b'd4:spam4:eggs3:cow3:mooe'`: the loop parses
both entries (keys `spam`, `cow`, a decreasing sequence) and the final
check fails. -/
theorem c6_key_order_check_witness :
    decode_dictionary bufUnsorted = .error (.decodeError .unsortedKeys) :=
  c6_key_order_check.1 bufUnsorted
    [([115, 112, 97, 109], .vbytes [101, 103, 103, 115]),
     ([99, 111, 119], .vbytes [109, 111, 111])]
    [[115, 112, 97, 109], [99, 111, 119]]
    rfl rfl rfl rfl

/-- C9.  Zero-or-negative length prefixes are rejected everywhere: in
`decode_string_bytes` whenever the prefix before the colon parses to a
value at most 0, and in the string branches of the `decode_list`
element loop and the `decode_dictionary` key position (at any recursion
level `prev`). -/
theorem c9_nonpositive_length_rejected :
    (∀ inp c n, pyFind inp 58 0 = c → c ≠ -1 →
      pyInt (pySlice inp 0 c) = some n → n ≤ 0 →
      decode_string_bytes utf8Cfg inp = .error (.decodeError .stringPrefix)) ∧
    (∀ (prev : DecFuns) inp idx acc b n,
      idx < (inp.length : Int) - 1 → pyGet inp idx = some b →
      48 ≤ b → b ≤ 57 →
      pyInt (pySlice inp idx (pyFind inp 58 (idx + 1))) = some n → n ≤ 0 →
      dlistLoopBody utf8Cfg prev inp idx acc = .error (.decodeError .stringPrefix)) ∧
    (∀ (prev : DecFuns) inp idx res keys b n,
      idx < (inp.length : Int) - 2 → pyGet inp idx = some b →
      48 ≤ b → b ≤ 57 →
      pyInt (pySlice inp idx (pyFind inp 58 (idx + 1))) = some n → n ≤ 0 →
      ddictLoopBody utf8Cfg prev inp idx res keys = .error (.decodeError .stringPrefix)) := by
  refine ⟨?_, ?_, ?_⟩
  · intro inp c n hfind hc hpi hn
    unfold decode_string_bytes
    simp only [show utf8Cfg.ccolon = 58 from rfl]
    rw [hfind]
    try dsimp only
    rw [if_neg hc, hpi]
    try dsimp only
    rw [if_pos hn]
  · intro prev inp idx acc b n hguard hb h48 h57 hpi hn
    have hne1 : ¬ b = 105 := by omega
    have hne2 : ¬ b = 108 := by omega
    have hne3 : ¬ b = 100 := by omega
    unfold dlistLoopBody
    rw [if_pos hguard, hb]
    try dsimp only
    simp only [show utf8Cfg.ci = 105 from rfl, show utf8Cfg.cl = 108 from rfl,
      show utf8Cfg.cd = 100 from rfl, show utf8Cfg.c0 = 48 from rfl,
      show utf8Cfg.c9 = 57 from rfl, show utf8Cfg.ccolon = 58 from rfl]
    rw [if_neg hne1, if_neg hne2, if_neg hne3, if_pos ⟨h48, h57⟩]
    try dsimp only
    rw [hpi]
    try dsimp only
    rw [if_pos hn]
  · intro prev inp idx res keys b n hguard hb h48 h57 hpi hn
    unfold ddictLoopBody
    rw [if_pos hguard, hb]
    try dsimp only
    simp only [show utf8Cfg.c0 = 48 from rfl, show utf8Cfg.c9 = 57 from rfl,
      show utf8Cfg.ccolon = 58 from rfl]
    rw [if_neg (not_not_intro ⟨h48, h57⟩)]
    try dsimp only
    rw [hpi]
    try dsimp only
    rw [if_pos hn]

/-- Witness for C9: `b'0:'` alone, the element `0:` inside `b'l0:e'`
(cursor 1), and the key `0:` inside `b'd0:ee'` (cursor 1), all fail
with the nonpositive-length `DecodeError`. -/
theorem c9_nonpositive_length_rejected_witness :
    decode_string_bytes utf8Cfg [48, 58] = .error (.decodeError .stringPrefix) ∧
    dlistLoopBody utf8Cfg (mkFuns utf8Cfg 0) [108, 48, 58, 101] 1 [] =
      .error (.decodeError .stringPrefix) ∧
    ddictLoopBody utf8Cfg (mkFuns utf8Cfg 0) [100, 48, 58, 101, 101] 1 [] [] =
      .error (.decodeError .stringPrefix) :=
  ⟨c9_nonpositive_length_rejected.1 [48, 58] 1 0 rfl (by decide) rfl (by decide),
   c9_nonpositive_length_rejected.2.1 (mkFuns utf8Cfg 0) [108, 48, 58, 101] 1 [] 48 0
     (by decide) rfl (by decide) (by decide) rfl (by decide),
   c9_nonpositive_length_rejected.2.2 (mkFuns utf8Cfg 0) [100, 48, 58, 101, 101] 1 [] [] 48 0
     (by decide) rfl (by decide) (by decide) rfl (by decide)⟩

/-- C10.  Duplicate adjacent keys are accepted: `b'd1:ai1e1:ai2ee'`
decodes to the one-entry dictionary `{a: 2}` (the second occurrence of
key `a` overwrites the first, keep-last), and a repeated key is a fixed
point of the `sorted` the key check compares against, so equal adjacent
keys can never trigger the unsorted-keys failure. -/
theorem c10_duplicate_keys_keep_last :
    decode_dictionary bufDupKeys = .ok [([97], .vint 2)] ∧
    (∀ k : List Nat, pySorted [k, k] = [k, k]) := by
  refine ⟨rfl, ?_⟩
  intro k
  simp [pySorted, insertLE, lexLE_refl k]

/-- Witness for C10's sorted-fixed-point clause at the key `b'a'`. -/
theorem c10_duplicate_keys_keep_last_witness :
    pySorted [[97], [97]] = [[97], [97]] :=
  c10_duplicate_keys_keep_last.2 [97]
